import Mathlib

/-
Verification development for the three-earth repository.

The definitions below are shallow embeddings of the geometry / caching code in
src/utils/highlighter.js, src/main.js, src/unnamed/part_000..part_003
(geoUtils.js, meshUtils.js and earlier variants of the highlighter module).
Coordinates from the GeoJSON input are modelled as rationals; the sphere
projection, which uses trigonometric functions, is modelled over the reals.
External npm libraries (turf, earcut, three's mergeGeometries) are modelled as
parameters of the pipeline, so every theorem quantifies over their behaviour;
the repository's own code is translated concretely.
-/

namespace ThreeEarth

/-- A GeoJSON coordinate pair, in (lng, lat) order as the source stores them. -/
abbrev Point : Type := ℚ × ℚ

/-! ## Ring normalization (src/utils/highlighter.js lines 190-208)

For each ring the source checks whether the first coordinate equals the last
(`ring[0].every((val, index) => val === ring[ring.length - 1][index])`), appends
the first coordinate when not, and keeps the result only when it has at least
four points (`ringClosed.length >= 4 ? ringClosed : null`, then `.filter`). -/

/-- Closing step for one ring: append the first point when the ring is open.
`ring.take 1` mirrors `[...ring, ring[0]]` (one copy of the first point). -/
def closeRing (ring : List Point) : List Point :=
  if ring.head? = ring.getLast? then ring else ring ++ ring.take 1

/-- Keep a closed ring only when it has at least 4 points, as in
`ringClosed.length >= 4 ? ringClosed : null`. -/
def normalizeRing (ring : List Point) : Option (List Point) :=
  if 4 ≤ (closeRing ring).length then some (closeRing ring) else none

/-- The `.map(...).filter((ring) => ring !== null)` over a polygon's rings. -/
def normalizeRings (rings : List (List Point)) : List (List Point) :=
  rings.filterMap normalizeRing

/-! ## Area classification (three variants in the repository)

src/utils/highlighter.js lines 210-248:
`if (meshMethod === "earcut" || area < 200000) { earcut } else
 { cellSide = area > 1000000 ? 75.0 : 30.0; grid }`.

src/unnamed/part_003 (meshUtils.js) lines 541-581:
`usingTurf = meshMethod === "turf" || area >= 200000;
 if (!usingTurf) { earcut } else { cellSide = area > 1000000 ? 75.0 : 20.0 }`.

src/unnamed/part_001 lines 34-67:
`if (area > 200000) { cellSide = area > 1000000 ? 100.0 : 10.0; grid }
 else { earcut }`. -/

/-- The tessellation strategy selected for one polygon: direct ear-clipping
triangulation, or grid tessellation with the given cell side in kilometers. -/
inductive MeshStrategy : Type
  | earcutDirect : MeshStrategy
  | grid : ℚ → MeshStrategy
deriving DecidableEq

/-- Strategy selection of src/utils/highlighter.js (area in km²). -/
def classifyHighlighter (meshMethod : Option String) (area : ℚ) : MeshStrategy :=
  if meshMethod = some "earcut" ∨ area < 200000 then MeshStrategy.earcutDirect
  else MeshStrategy.grid (if 1000000 < area then 75 else 30)

/-- Strategy selection of src/unnamed/part_003 (meshUtils.js) (area in km²). -/
def classifyMeshUtils (meshMethod : Option String) (area : ℚ) : MeshStrategy :=
  if meshMethod = some "turf" ∨ 200000 ≤ area then
    MeshStrategy.grid (if 1000000 < area then 75 else 20)
  else MeshStrategy.earcutDirect

/-- Strategy selection of src/unnamed/part_001 (area in km²); this variant
reads no method override. -/
def classifyPart001 (area : ℚ) : MeshStrategy :=
  if 200000 < area then MeshStrategy.grid (if 1000000 < area then 100 else 10)
  else MeshStrategy.earcutDirect

/-! ## Theorems for C1 and C2 -/

/-- C1: ring normalization is closure-idempotent. For a nonempty ring whose
first point equals its last, the closing step returns the ring unchanged; for
an open ring it appends exactly one point equal to the ring's first point; and
a ring whose closed form has fewer than 4 points is discarded (`normalizeRing`
returns `none`), so every ring in the normalized output has at least 4 points
and short rings are never handed to the triangulator. -/
theorem c1_ring_normalization (ring : List Point) (h : ring ≠ []) :
    (ring.head? = ring.getLast? → closeRing ring = ring)
    ∧ (ring.head? ≠ ring.getLast? → closeRing ring = ring ++ [ring.headI])
    ∧ ((closeRing ring).length < 4 → normalizeRing ring = none)
    ∧ (∀ rings r, r ∈ normalizeRings rings → 4 ≤ r.length) := by
  obtain ⟨a, t, rfl⟩ := List.exists_cons_of_ne_nil h
  refine ⟨fun hc => ?_, fun hc => ?_, fun hlen => ?_, fun rings r hr => ?_⟩
  · simp [closeRing, hc]
  · unfold closeRing
    rw [if_neg hc]
    simp
  · unfold normalizeRing
    rw [if_neg (by omega)]
  · rcases List.mem_filterMap.mp hr with ⟨ring0, _, hsome⟩
    unfold normalizeRing at hsome
    by_cases hle : 4 ≤ (closeRing ring0).length
    · rw [if_pos hle] at hsome
      cases hsome
      exact hle
    · rw [if_neg hle] at hsome
      exact absurd hsome (by simp)

/-- Witness for C1 at the concrete open ring [(0,0), (1,0), (0,1)]: it is
nonempty, closing appends its first point, and the closed 4-point ring is
kept while any sub-4-point result would be dropped. -/
theorem c1_witness :
    ([((0 : ℚ), (0 : ℚ)), (1, 0), (0, 1)] : List Point) ≠ [] ∧
    ((([((0 : ℚ), (0 : ℚ)), (1, 0), (0, 1)] : List Point).head? =
        ([((0 : ℚ), (0 : ℚ)), (1, 0), (0, 1)] : List Point).getLast? →
      closeRing [((0 : ℚ), (0 : ℚ)), (1, 0), (0, 1)] = [((0 : ℚ), (0 : ℚ)), (1, 0), (0, 1)])
    ∧ (([((0 : ℚ), (0 : ℚ)), (1, 0), (0, 1)] : List Point).head? ≠
        ([((0 : ℚ), (0 : ℚ)), (1, 0), (0, 1)] : List Point).getLast? →
      closeRing [((0 : ℚ), (0 : ℚ)), (1, 0), (0, 1)] =
        [((0 : ℚ), (0 : ℚ)), (1, 0), (0, 1)] ++
          [([((0 : ℚ), (0 : ℚ)), (1, 0), (0, 1)] : List Point).headI])
    ∧ ((closeRing [((0 : ℚ), (0 : ℚ)), (1, 0), (0, 1)]).length < 4 →
      normalizeRing [((0 : ℚ), (0 : ℚ)), (1, 0), (0, 1)] = none)
    ∧ (∀ rings r, r ∈ normalizeRings rings → 4 ≤ r.length)) :=
  ⟨by decide, c1_ring_normalization [((0 : ℚ), (0 : ℚ)), (1, 0), (0, 1)] (by decide)⟩

/-- C2 counterexample: the claim places every polygon with area strictly
between 200,000 and 1,000,000 km² in a grid tessellation whose cell side lies
in the 20-30 km range, but the classifier of src/unnamed/part_001 (cited by the
claim) uses a 10 km cell side there: at area = 500,000 km² it selects
`grid 10`, and 10 is not in [20, 30]. -/
theorem c2_counterexample :
    classifyPart001 500000 = MeshStrategy.grid 10
    ∧ ¬ ((20 : ℚ) ≤ 10 ∧ (10 : ℚ) ≤ 30) := by
  constructor
  · norm_num [classifyPart001]
  · intro hc
    exact absurd hc.1 (by norm_num)

/-- C2 (amended): with no method override, the three classifiers route by the
fixed thresholds as follows. Below 200,000 km² all three triangulate directly.
Between 200,000 and 1,000,000 km² highlighter.js picks a 30 km grid cell and
meshUtils a 20 km cell (both inside the claimed 20-30 km range), while the
part_001 variant sends area exactly 200,000 km² to direct triangulation and
uses a 10 km cell otherwise. Above 1,000,000 km² highlighter.js and meshUtils
pick 75 km and part_001 picks 100 km (all inside the claimed 75-100 km range). -/
theorem c2_amended (mm : Option String) (area : ℚ)
    (h1 : mm ≠ some "earcut") (h2 : mm ≠ some "turf") :
    (area < 200000 →
      classifyHighlighter mm area = MeshStrategy.earcutDirect
      ∧ classifyMeshUtils mm area = MeshStrategy.earcutDirect
      ∧ classifyPart001 area = MeshStrategy.earcutDirect)
    ∧ (200000 ≤ area → area ≤ 1000000 →
      classifyHighlighter mm area = MeshStrategy.grid 30
      ∧ classifyMeshUtils mm area = MeshStrategy.grid 20
      ∧ (area = 200000 → classifyPart001 area = MeshStrategy.earcutDirect)
      ∧ (200000 < area → classifyPart001 area = MeshStrategy.grid 10))
    ∧ (1000000 < area →
      classifyHighlighter mm area = MeshStrategy.grid 75
      ∧ classifyMeshUtils mm area = MeshStrategy.grid 75
      ∧ classifyPart001 area = MeshStrategy.grid 100) := by
  refine ⟨fun hs => ⟨?_, ?_, ?_⟩, fun hlo hhi => ⟨?_, ?_, fun he => ?_, fun hgt => ?_⟩,
    fun hv => ⟨?_, ?_, ?_⟩⟩
  · simp [classifyHighlighter, hs]
  · simp only [classifyMeshUtils]
    rw [if_neg]
    push_neg
    exact ⟨h2, by linarith⟩
  · simp only [classifyPart001]
    rw [if_neg]
    linarith
  · simp only [classifyHighlighter]
    rw [if_neg, if_neg]
    · linarith
    · push_neg
      exact ⟨h1, by linarith⟩
  · simp only [classifyMeshUtils]
    rw [if_pos (Or.inr hlo), if_neg]
    linarith
  · simp only [classifyPart001]
    rw [if_neg (by rw [he]; exact lt_irrefl _)]
  · simp only [classifyPart001]
    rw [if_pos hgt, if_neg]
    linarith
  · simp only [classifyHighlighter]
    rw [if_neg, if_pos hv]
    push_neg
    exact ⟨h1, by linarith⟩
  · simp only [classifyMeshUtils]
    rw [if_pos (Or.inr (by linarith)), if_pos hv]
  · simp only [classifyPart001]
    rw [if_pos (by linarith), if_pos hv]

/-- Witness for C2 (amended) at the override-free call with area 500,000 km². -/
theorem c2_witness :
    ((500000 : ℚ) < 200000 →
      classifyHighlighter none 500000 = MeshStrategy.earcutDirect
      ∧ classifyMeshUtils none 500000 = MeshStrategy.earcutDirect
      ∧ classifyPart001 500000 = MeshStrategy.earcutDirect)
    ∧ ((200000 : ℚ) ≤ 500000 → (500000 : ℚ) ≤ 1000000 →
      classifyHighlighter none 500000 = MeshStrategy.grid 30
      ∧ classifyMeshUtils none 500000 = MeshStrategy.grid 20
      ∧ ((500000 : ℚ) = 200000 → classifyPart001 500000 = MeshStrategy.earcutDirect)
      ∧ ((200000 : ℚ) < 500000 → classifyPart001 500000 = MeshStrategy.grid 10))
    ∧ ((1000000 : ℚ) < 500000 →
      classifyHighlighter none 500000 = MeshStrategy.grid 75
      ∧ classifyMeshUtils none 500000 = MeshStrategy.grid 75
      ∧ classifyPart001 500000 = MeshStrategy.grid 100) :=
  c2_amended none 500000 (by simp) (by simp)

/-! ## Sphere projection (src/unnamed/part_002 = geoUtils.js, lines 36-45)

`latLngTo3DPosition(lat, lng, radius)` computes
`phi = ((90 - lat) * PI) / 180`, `theta = ((180 + lng) * PI) / 180`,
`x = -radius * sin(phi) * cos(theta)`, `y = radius * cos(phi)`,
`z = radius * sin(phi) * sin(theta)`. Modelled over the reals; the JS
floating-point tolerance becomes exact equality. -/

/-- The sphere projection of geoUtils.js, over the reals. -/
noncomputable def latLngTo3DPosition (lat lng radius : ℝ) : ℝ × ℝ × ℝ :=
  (-radius * Real.sin ((90 - lat) * Real.pi / 180) * Real.cos ((180 + lng) * Real.pi / 180),
   radius * Real.cos ((90 - lat) * Real.pi / 180),
   radius * Real.sin ((90 - lat) * Real.pi / 180) * Real.sin ((180 + lng) * Real.pi / 180))

/-- Euclidean distance of a 3D point from the origin. -/
noncomputable def distFromOrigin (p : ℝ × ℝ × ℝ) : ℝ :=
  Real.sqrt (p.1 ^ 2 + p.2.1 ^ 2 + p.2.2 ^ 2)

/-- C3: the sphere projection returns exactly
(-r sin(phi) cos(theta), r cos(phi), r sin(phi) sin(theta)) with
phi = (90 - lat) degrees in radians and theta = (180 + lng) degrees in
radians, and consequently every projected vertex lies at Euclidean distance
exactly r from the origin (for any nonnegative radius r). -/
theorem c3_latLngTo3DPosition_spec (lat lng radius : ℝ) (h : 0 ≤ radius) :
    (latLngTo3DPosition lat lng radius).1 =
      -radius * Real.sin ((90 - lat) * Real.pi / 180) * Real.cos ((180 + lng) * Real.pi / 180)
    ∧ (latLngTo3DPosition lat lng radius).2.1 =
      radius * Real.cos ((90 - lat) * Real.pi / 180)
    ∧ (latLngTo3DPosition lat lng radius).2.2 =
      radius * Real.sin ((90 - lat) * Real.pi / 180) * Real.sin ((180 + lng) * Real.pi / 180)
    ∧ distFromOrigin (latLngTo3DPosition lat lng radius) = radius := by
  refine ⟨rfl, rfl, rfl, ?_⟩
  unfold distFromOrigin latLngTo3DPosition
  have h1 := Real.sin_sq_add_cos_sq ((180 + lng) * Real.pi / 180)
  have h2 := Real.sin_sq_add_cos_sq ((90 - lat) * Real.pi / 180)
  have key :
      (-radius * Real.sin ((90 - lat) * Real.pi / 180) *
          Real.cos ((180 + lng) * Real.pi / 180)) ^ 2 +
        (radius * Real.cos ((90 - lat) * Real.pi / 180)) ^ 2 +
        (radius * Real.sin ((90 - lat) * Real.pi / 180) *
          Real.sin ((180 + lng) * Real.pi / 180)) ^ 2 = radius ^ 2 := by
    have expand :
        (-radius * Real.sin ((90 - lat) * Real.pi / 180) *
            Real.cos ((180 + lng) * Real.pi / 180)) ^ 2 +
          (radius * Real.cos ((90 - lat) * Real.pi / 180)) ^ 2 +
          (radius * Real.sin ((90 - lat) * Real.pi / 180) *
            Real.sin ((180 + lng) * Real.pi / 180)) ^ 2 =
          radius ^ 2 * ((Real.sin ((90 - lat) * Real.pi / 180)) ^ 2 *
              ((Real.sin ((180 + lng) * Real.pi / 180)) ^ 2 +
                (Real.cos ((180 + lng) * Real.pi / 180)) ^ 2) +
            (Real.cos ((90 - lat) * Real.pi / 180)) ^ 2) := by
      ring
    rw [expand, h1, mul_one, h2, mul_one]
  rw [key]
  exact Real.sqrt_sq h

/-- Witness for C3 at lat = 0, lng = 0, radius = 100. -/
theorem c3_witness :
    (latLngTo3DPosition 0 0 100).1 =
      -100 * Real.sin ((90 - 0) * Real.pi / 180) * Real.cos ((180 + 0) * Real.pi / 180)
    ∧ (latLngTo3DPosition 0 0 100).2.1 =
      100 * Real.cos ((90 - 0) * Real.pi / 180)
    ∧ (latLngTo3DPosition 0 0 100).2.2 =
      100 * Real.sin ((90 - 0) * Real.pi / 180) * Real.sin ((180 + 0) * Real.pi / 180)
    ∧ distFromOrigin (latLngTo3DPosition 0 0 100) = 100 :=
  c3_latLngTo3DPosition_spec 0 0 100 (by norm_num)

/-! ## Globe rotation azimuth (src/main.js lines 130-145; same code at 683-713)

`normalizeAngle = (angle) => ((angle + 180) % 360) - 180` with the JavaScript
remainder operator, whose result takes the sign of the dividend
(`a % b = a - b * trunc(a / b)`), then
`azimuthalAngle = normalizeAngle(targetLatLng.lng - initialLatLng.lng)`. -/

/-- Truncation toward zero, as JavaScript's implicit `trunc` in `%`. -/
def jsTrunc (q : ℚ) : ℤ :=
  if 0 ≤ q then ⌊q⌋ else ⌈q⌉

/-- The JavaScript remainder operator on numbers: `a - b * trunc(a / b)`. -/
def jsRem (a b : ℚ) : ℚ :=
  a - b * (jsTrunc (a / b) : ℚ)

/-- `normalizeAngle` from `rotateGlobeTo` in src/main.js. -/
def normalizeAngle (angle : ℚ) : ℚ :=
  jsRem (angle + 180) 360 - 180

/-- The azimuthal rotation angle `normalizeAngle(target.lng - initial.lng)`. -/
def azimuthalAngleDeg (initialLng targetLng : ℚ) : ℚ :=
  normalizeAngle (targetLng - initialLng)

/-- C8: the claim says the normalized azimuth always lies in [-180, 180] for
longitudes in [-180, 180], and the code comments say the difference is
normalized to the shortest path. With initial longitude 90 and target
longitude -100 (both in range), the difference is -190 and JavaScript's
sign-preserving `%` leaves it unchanged: the computed azimuth is -190, outside
[-180, 180], so the globe takes the long way around. -/
theorem c8_normalizeAngle_code_bug :
    azimuthalAngleDeg 90 (-100) = -190
    ∧ azimuthalAngleDeg 90 (-100) < -180
    ∧ (-180 ≤ (90 : ℚ) ∧ (90 : ℚ) ≤ 180 ∧ -180 ≤ (-100 : ℚ) ∧ (-100 : ℚ) ≤ 180) := by
  have htr : jsTrunc (-(1 / 36)) = 0 := by
    unfold jsTrunc
    rw [if_neg (by norm_num)]
    rw [Int.ceil_eq_zero_iff]
    constructor <;> norm_num
  have hval : azimuthalAngleDeg 90 (-100) = -190 := by
    unfold azimuthalAngleDeg normalizeAngle jsRem
    norm_num
    rw [htr]
    norm_num
  refine ⟨hval, by rw [hval]; norm_num, by norm_num⟩

/-! ## GeoJSON input and mesh artifacts -/

/-- A GeoJSON geometry as the pipeline reads it. `other` keeps the type string
of an unsupported geometry (such as "Point"); the source code treats a feature
whose geometry has no usable coordinates as invalid and skips it. -/
inductive Geometry : Type
  | polygon : List (List Point) → Geometry
  | multiPolygon : List (List (List Point)) → Geometry
  | other : String → Geometry

/-- True exactly on the two geometry types the pipeline supports. -/
def Geometry.isSupported : Geometry → Bool
  | .polygon _ => true
  | .multiPolygon _ => true
  | .other _ => false

/-- One entry of `geoJson.features`; `none` models a feature whose
`feature.geometry / feature.geometry.coordinates` check fails. -/
structure Feature : Type where
  geometry : Option Geometry

/-- The per-region document: a feature collection plus the optional
`meshMethod` override attached by the caller. -/
structure GeoJson : Type where
  features : List Feature
  meshMethod : Option String

/-- A renderable artifact: a filled triangle mesh (projected vertex buffer and
triangle index buffer, `new THREE.Mesh` in the source), a closed outline loop
(`new THREE.LineLoop`), or a pin marker group positioned at a projected
centroid. -/
inductive Artifact : Type
  | filled : List (ℝ × ℝ × ℝ) → List ℕ → Artifact
  | lineLoop : List (ℝ × ℝ × ℝ) → Artifact
  | pinMarker : ℝ × ℝ × ℝ → Artifact

/-- Recognizer for outline artifacts. -/
def Artifact.isLineLoop : Artifact → Bool
  | .lineLoop _ => true
  | _ => false

/-- Recognizer for filled-mesh artifacts. -/
def Artifact.isFilled : Artifact → Bool
  | .filled _ _ => true
  | _ => false

/-! ## Outline generation (geoJsonTo3DLines, src/utils/highlighter.js 318-360)

The source iterates `feature.geometry.coordinates.forEach(polygon =>
polygon.forEach(ring => ...))` without branching on the geometry type, so the
nesting is only correct for MultiPolygon coordinates. For each ring it
projects every `[lng, lat]` pair, re-appends the first projected vertex
(`vertices3D.slice(0, 3)` pushed back), and pushes one `THREE.LineLoop`. For a
Polygon geometry the same loop destructures a number as a coordinate pair and
throws a TypeError as soon as any ring is nonempty; the `Except` error value
models that exception. -/

/-- Project one ring of (lng, lat) pairs. -/
noncomputable def projectRing (radius : ℝ) (ring : List Point) : List (ℝ × ℝ × ℝ) :=
  ring.map (fun p => latLngTo3DPosition (p.2 : ℝ) (p.1 : ℝ) radius)

/-- Append the first vertex again, mirroring
`vertices3D.push(...vertices3D.slice(0, 3))`. -/
def closeLoopVertices (vs : List (ℝ × ℝ × ℝ)) : List (ℝ × ℝ × ℝ) :=
  vs ++ vs.take 1

/-- The line loops produced for MultiPolygon coordinates. -/
noncomputable def linesOfMultiPolygon (radius : ℝ)
    (polys : List (List (List Point))) : List Artifact :=
  (polys.map (fun poly =>
    poly.map (fun ring => Artifact.lineLoop (closeLoopVertices (projectRing radius ring))))).flatten

/-- Line generation for one feature. A missing or coordinate-less geometry is
skipped; Polygon coordinates crash (TypeError) as soon as some ring is
nonempty, because the untyped double loop destructures a number. -/
noncomputable def linesOfFeature (radius : ℝ) : Option Geometry → Except Unit (List Artifact)
  | none => Except.ok []
  | some (Geometry.other _) => Except.ok []
  | some (Geometry.multiPolygon polys) => Except.ok (linesOfMultiPolygon radius polys)
  | some (Geometry.polygon rings) =>
      if rings.any (fun r => !r.isEmpty) then Except.error () else Except.ok []

/-- Sequential processing of the feature list; an exception aborts the whole
call and discards the artifacts accumulated so far. -/
noncomputable def linesOfFeatures (radius : ℝ) : List Feature → Except Unit (List Artifact)
  | [] => Except.ok []
  | f :: fs =>
      match linesOfFeature radius f.geometry with
      | Except.error e => Except.error e
      | Except.ok as =>
          match linesOfFeatures radius fs with
          | Except.error e => Except.error e
          | Except.ok bs => Except.ok (as ++ bs)

/-- `geoJsonTo3DLines(geoJson, radius)` of src/utils/highlighter.js. -/
noncomputable def geoJsonTo3DLines (gj : GeoJson) (radius : ℝ) : Except Unit (List Artifact) :=
  linesOfFeatures radius gj.features

/-! ## Centroids and pins (geoUtils.js lines 2-33; highlighter.js 362-432) -/

/-- Unweighted average of all ring vertices, returned as (lat, lng); the
shared body of `calculatePolygonCentroid` and the pin generator's
`calculateCentroid`. Division by zero (an empty coordinate list, NaN in JS)
is the rational junk value 0. -/
def ringAverage (rings : List (List Point)) : ℚ × ℚ :=
  let pts := rings.flatten
  ((pts.map Prod.snd).sum / pts.length, (pts.map Prod.fst).sum / pts.length)

/-- `calculatePolygonCentroid(geometry)` of src/unnamed/part_002 (geoUtils.js):
Polygon averages all its rings, MultiPolygon averages the rings of its first
polygon, and every other geometry type logs a diagnostic and returns the fixed
point {lat: 0, lng: 0} instead of throwing. Returned as (lat, lng). -/
def calculatePolygonCentroid : Geometry → ℚ × ℚ
  | Geometry.polygon rings => ringAverage rings
  | Geometry.multiPolygon polys => ringAverage polys.headI
  | Geometry.other _ => (0, 0)

/-- `geoJsonToSingle3DPin` of src/utils/highlighter.js: one pin at the
projected centroid of the first feature, or nothing when the first feature is
missing, invalid, or of an unsupported geometry type. -/
noncomputable def geoJsonToSingle3DPin (gj : GeoJson) (radius : ℝ) : List Artifact :=
  match gj.features.head? with
  | none => []
  | some f =>
      match f.geometry with
      | none => []
      | some (Geometry.other _) => []
      | some (Geometry.polygon rings) =>
          [Artifact.pinMarker (latLngTo3DPosition ((ringAverage rings).1 : ℝ)
            ((ringAverage rings).2 : ℝ) radius)]
      | some (Geometry.multiPolygon polys) =>
          [Artifact.pinMarker (latLngTo3DPosition ((ringAverage polys.headI).1 : ℝ)
            ((ringAverage polys.headI).2 : ℝ) radius)]

/-! ## Filled-mesh pipeline (geoJsonTo3DMesh, src/utils/highlighter.js 150-316)

The ear-clipping triangulator (`earcut`, `earcut.flatten`) and the turf
library (`turf.area`, `turf.bbox`, `turf.squareGrid`, `turf.intersect`) and
three's `mergeGeometries` are external npm packages, out of the repository;
they are modelled as parameters bundled in `GeoLibs`, so every theorem holds
for any behaviour of those libraries. The repository's own code — ring
normalization, area thresholds, `createMesh`'s projection loop, cache checks
and writes — is translated concretely. -/

/-- The external library functions the pipeline calls. `flatten` returns
(vertices, holes, dimensions) as `earcut.flatten` does; `intersect` returns
`none` when `turf.intersect` yields no usable intersection (the source also
drops intersections with an empty coordinate list, folded into `none` here). -/
structure GeoLibs : Type where
  area : List (List Point) → ℚ
  bbox : List (List Point) → ℚ × ℚ × ℚ × ℚ
  squareGridCells : ℚ × ℚ × ℚ × ℚ → ℚ → List (List (List Point))
  intersect : List (List Point) → List (List Point) → Option (List (List Point))
  flattenData : List (List Point) → List ℚ × List ℕ × ℕ
  earcutIndices : List ℚ → List ℕ → ℕ → List ℕ
  merge : List Artifact → Artifact

/-- The projection loop of `createMesh`: step through the flat vertex list
with stride `dimensions`, reading `lng = vertices[i]`, `lat = vertices[i+1]`. -/
noncomputable def verticesTo3D (radius : ℝ) (dimensions : ℕ) : List ℚ → List (ℝ × ℝ × ℝ)
  | [] => []
  | [_] => []
  | lng :: lat :: rest =>
      latLngTo3DPosition (lat : ℝ) (lng : ℝ) radius ::
        verticesTo3D radius dimensions (rest.drop (dimensions - 2))
termination_by l => l.length
decreasing_by simp [List.length_drop]; omega

/-- `createMesh(vertices, indices, dimensions, radius)` of highlighter.js. -/
noncomputable def createMesh (vertices : List ℚ) (indices : List ℕ) (dimensions : ℕ)
    (radius : ℝ) : Artifact :=
  Artifact.filled (verticesTo3D radius dimensions vertices) indices

/-- `earcut.flatten` + `earcut` + `createMesh` applied to one ring set. -/
noncomputable def meshFromRings (libs : GeoLibs) (radius : ℝ)
    (rings : List (List Point)) : Artifact :=
  let fd := libs.flattenData rings
  createMesh fd.1 (libs.earcutIndices fd.1 fd.2.1 fd.2.2) fd.2.2 radius

/-- Processing of one polygon's coordinate list (highlighter.js 189-248):
normalize the rings, skip the polygon when none survive, compute the area in
km² (`turf.area(polygon) / 1000000`), then either triangulate directly or run
the square-grid clipping at the tier's cell side and triangulate each
surviving intersection. -/
noncomputable def processPolygon (libs : GeoLibs) (meshMethod : Option String)
    (radius : ℝ) (polygonCoords : List (List Point)) : List Artifact :=
  let rings := normalizeRings polygonCoords
  if rings = [] then []
  else
    let area := libs.area rings / 1000000
    match classifyHighlighter meshMethod area with
    | MeshStrategy.earcutDirect => [meshFromRings libs radius rings]
    | MeshStrategy.grid cellSide =>
        let cells := libs.squareGridCells (libs.bbox rings) cellSide
        (cells.filterMap (fun cell => libs.intersect cell rings)).map
          (meshFromRings libs radius)

/-- The feature loop of geoJsonTo3DMesh: Polygon contributes its single
coordinate list, MultiPolygon one per polygon, anything else is skipped with a
diagnostic. -/
noncomputable def featuresToMeshes (libs : GeoLibs) (meshMethod : Option String)
    (radius : ℝ) (features : List Feature) : List Artifact :=
  (features.map (fun f =>
    match f.geometry with
    | none => []
    | some (Geometry.polygon coords) => processPolygon libs meshMethod radius coords
    | some (Geometry.multiPolygon polys) =>
        (polys.map (processPolygon libs meshMethod radius)).flatten
    | some (Geometry.other _) => [])).flatten

/-! ## Cache tiers (src/utils/highlighter.js 12-23, 40-118, 150-166, 252-258)

`polygonCache` is the module-level transient dictionary with
`savePolygonsToCache` / `getPolygonsFromCache`; the IndexedDB `meshData` store
is the persistent tier accessed through `loadMeshData` / `saveMeshData`. -/

/-- The two mutable cache tiers visible to the highlighter module. `mem` is
the transient `polygonCache` (which stores polygon coordinate data), `db` the
persistent IndexedDB store of serialized meshes. -/
structure CacheState : Type where
  mem : String → Option (List (List (List Point)))
  db : String → Option (List Artifact)

/-- `savePolygonsToCache(key, data)`: write the transient tier. (Defined in
the source but never called by the pipeline.) -/
def savePolygonsToCache (st : CacheState) (key : String)
    (data : List (List (List Point))) : CacheState :=
  { st with mem := fun k => if k = key then some data else st.mem k }

/-- `getPolygonsFromCache(key)`: read the transient tier. (Defined in the
source but never called by the pipeline.) -/
def getPolygonsFromCache (st : CacheState) (key : String) :
    Option (List (List (List Point))) :=
  st.mem key

/-- The hardcoded allow-list of large regions, used both for the load attempt
and for the save after computing (highlighter.js lines 160 and 253). -/
def dbAllowList : List String := ["ru", "ca", "us", "cn", "br", "au"]

/-- `geoJsonTo3DMesh(name, geoJson, radius)`: try the persistent tier for
allow-listed names and return its meshes on a hit; otherwise run the compute
pipeline over all features, and for allow-listed names save the combined mesh
back to the persistent tier. Returns (artifacts, cache state after the call,
whether the compute pipeline ran). -/
noncomputable def geoJsonTo3DMeshRun (libs : GeoLibs) (name : String) (gj : GeoJson)
    (radius : ℝ) (st : CacheState) : List Artifact × CacheState × Bool :=
  if name ∈ dbAllowList then
    match st.db name with
    | some cached => (cached, st, false)
    | none =>
        let ms := featuresToMeshes libs gj.meshMethod radius gj.features
        (ms, { st with db := fun k => if k = name then some [libs.merge ms] else st.db k },
          true)
  else
    (featuresToMeshes libs gj.meshMethod radius gj.features, st, true)

/-- The artifacts a caller receives from an `Except`-valued generator:
nothing when the generator threw. -/
def resultArtifacts : Except Unit (List Artifact) → List Artifact
  | Except.error _ => []
  | Except.ok as => as

/-- `highlightPolygons(name, geoJson, earth, radius, style, elevation)` of
src/utils/highlighter.js, restricted to the artifacts it computes and the
cache state: `style === "mesh"` awaits geoJsonTo3DMesh, `"lines"` calls
geoJsonTo3DLines, `"pin"` calls geoJsonToSingle3DPin, and any other style
string produces nothing. -/
noncomputable def highlightPolygonsRun (libs : GeoLibs) (name : String) (gj : GeoJson)
    (radius : ℝ) (style : String) (elevation : ℝ) (st : CacheState) :
    Except Unit (List Artifact) × CacheState :=
  if style = "mesh" then
    let r := geoJsonTo3DMeshRun libs name gj (radius * elevation) st
    (Except.ok r.1, r.2.1)
  else if style = "lines" then
    (geoJsonTo3DLines gj (radius * elevation), st)
  else if style = "pin" then
    (Except.ok (geoJsonToSingle3DPin gj (radius * elevation)), st)
  else (Except.ok [], st)

/-! ## C4: style dispatch never returns the cached filled mesh for outlines -/

/-- Every artifact built for a MultiPolygon by the outline generator is a
line loop. -/
theorem linesOfMultiPolygon_all (radius : ℝ) (polys : List (List (List Point))) :
    (linesOfMultiPolygon radius polys).all Artifact.isLineLoop = true := by
  rw [List.all_eq_true]
  intro a ha
  unfold linesOfMultiPolygon at ha
  rcases List.mem_flatten.mp ha with ⟨l, hl, hal⟩
  rcases List.mem_map.mp hl with ⟨poly, _, rfl⟩
  rcases List.mem_map.mp hal with ⟨ring, _, rfl⟩
  rfl

/-- Every artifact the outline generator returns for one feature is a line
loop. -/
theorem linesOfFeature_all (radius : ℝ) (g : Option Geometry) (as : List Artifact)
    (h : linesOfFeature radius g = Except.ok as) :
    as.all Artifact.isLineLoop = true := by
  match g with
  | none =>
      simp only [linesOfFeature, Except.ok.injEq] at h
      rw [← h]
      rfl
  | some (Geometry.other t) =>
      simp only [linesOfFeature, Except.ok.injEq] at h
      rw [← h]
      rfl
  | some (Geometry.multiPolygon polys) =>
      simp only [linesOfFeature, Except.ok.injEq] at h
      rw [← h]
      exact linesOfMultiPolygon_all radius polys
  | some (Geometry.polygon rings) =>
      simp only [linesOfFeature] at h
      split at h
      · exact absurd h (by simp)
      · rw [← (Except.ok.injEq _ _).mp h]
        rfl

/-- Every artifact the outline generator returns for a feature list is a line
loop. -/
theorem linesOfFeatures_all (radius : ℝ) (fs : List Feature) (as : List Artifact)
    (h : linesOfFeatures radius fs = Except.ok as) :
    as.all Artifact.isLineLoop = true := by
  induction fs generalizing as with
  | nil =>
      simp only [linesOfFeatures, Except.ok.injEq] at h
      rw [← h]
      rfl
  | cons f fs ih =>
      unfold linesOfFeatures at h
      cases hf : linesOfFeature radius f.geometry with
      | error e => rw [hf] at h; exact absurd h (by simp)
      | ok bs =>
          rw [hf] at h
          cases hr : linesOfFeatures radius fs with
          | error e => rw [hr] at h; exact absurd h (by simp)
          | ok cs =>
              rw [hr] at h
              rw [← (Except.ok.injEq _ _).mp h, List.all_append, Bool.and_eq_true]
              exact ⟨linesOfFeature_all radius f.geometry bs hf, ih cs hr⟩

/-- A list of line loops contains no filled artifact. -/
theorem filter_isFilled_of_all_lineLoop (as : List Artifact)
    (h : as.all Artifact.isLineLoop = true) :
    as.filter Artifact.isFilled = [] := by
  rw [List.filter_eq_nil_iff]
  intro a ha
  have hll := List.all_eq_true.mp h a ha
  cases a with
  | filled v i => exact absurd hll (by simp [Artifact.isLineLoop])
  | lineLoop v => simp [Artifact.isFilled]
  | pinMarker p => simp [Artifact.isFilled]

/-- C4: requesting a region with style `"lines"` (Outline) never yields the
cached filled mesh stored under that identifier: every artifact the request
returns is a line loop, no filled artifact occurs in the result, the cache
state is left untouched, and the result does not depend on the cache contents
at all — so an immediately preceding `"mesh"` (Filled) request for the same
identifier cannot leak its artifact into the outline request. -/
theorem c4_outline_request_never_filled (libs : GeoLibs) (name : String) (gj : GeoJson)
    (radius elevation : ℝ) (st st2 : CacheState) :
    (resultArtifacts (highlightPolygonsRun libs name gj radius "lines" elevation st).1).all
        Artifact.isLineLoop = true
    ∧ (resultArtifacts (highlightPolygonsRun libs name gj radius "lines" elevation st).1).filter
        Artifact.isFilled = []
    ∧ (highlightPolygonsRun libs name gj radius "lines" elevation st).2 = st
    ∧ (highlightPolygonsRun libs name gj radius "lines" elevation st).1 =
        (highlightPolygonsRun libs name gj radius "lines" elevation st2).1 := by
  have hne : ("lines" : String) ≠ "mesh" := by decide
  have hrun : ∀ s : CacheState,
      highlightPolygonsRun libs name gj radius "lines" elevation s =
        (geoJsonTo3DLines gj (radius * elevation), s) := by
    intro s
    unfold highlightPolygonsRun
    rw [if_neg hne, if_pos rfl]
  have hall : (resultArtifacts (geoJsonTo3DLines gj (radius * elevation))).all
      Artifact.isLineLoop = true := by
    cases hE : geoJsonTo3DLines gj (radius * elevation) with
    | error e => rfl
    | ok as =>
        unfold geoJsonTo3DLines at hE
        simpa [resultArtifacts] using linesOfFeatures_all _ _ _ hE
  refine ⟨?_, ?_, ?_, ?_⟩
  · rw [hrun]
    exact hall
  · rw [hrun]
    exact filter_isFilled_of_all_lineLoop _ hall
  · rw [hrun]
  · rw [hrun, hrun]

/-! ## C5 and C9: cache write-back and (absence of) single-flight

Concrete fixtures used by the closed counterexamples: a trivial instantiation
of the external libraries, a one-feature GeoJSON whose single ring closes to a
4-point triangle, and empty cache tiers. -/

/-- A concrete instantiation of the external libraries (both tiers of every
counterexample quantify over `GeoLibs`, so any instantiation is a valid run). -/
def libs0 : GeoLibs where
  area := fun _ => 0
  bbox := fun _ => (0, 0, 0, 0)
  squareGridCells := fun _ _ => []
  intersect := fun _ _ => none
  flattenData := fun _ => ([], [], 2)
  earcutIndices := fun _ _ _ => []
  merge := fun _ => Artifact.filled [] []

/-- An open triangle ring; normalization closes it to 4 points. -/
def ring0 : List Point := [(0, 0), (1, 0), (0, 1)]

/-- A one-feature Polygon document with no method override. -/
def gj0 : GeoJson := ⟨[⟨some (Geometry.polygon [ring0])⟩], none⟩

/-- Empty transient and persistent cache tiers. -/
def st0 : CacheState := ⟨fun _ => none, fun _ => none⟩

/-- Evaluating the compute pipeline on the fixture: one filled mesh comes out. -/
theorem featuresToMeshes_gj0 :
    featuresToMeshes libs0 gj0.meshMethod 100 gj0.features = [Artifact.filled [] []] := by
  show featuresToMeshes libs0 none 100 [⟨some (Geometry.polygon [ring0])⟩] =
    [Artifact.filled [] []]
  unfold featuresToMeshes processPolygon
  norm_num [ring0, normalizeRings, normalizeRing, closeRing, classifyHighlighter,
    meshFromRings, createMesh, libs0, verticesTo3D, Prod.ext_iff]
  simp

/-- C5 counterexample: a full cache miss for the non-allow-listed region "fr"
runs the compute pipeline (flag `true`, nonempty artifact list), yet
afterwards the transient tier still has no entry under "fr" — the computed
artifact is not written back into the transient memory tier. -/
theorem c5_counterexample :
    (geoJsonTo3DMeshRun libs0 "fr" gj0 100 st0).2.2 = true
    ∧ (geoJsonTo3DMeshRun libs0 "fr" gj0 100 st0).1 ≠ []
    ∧ ((geoJsonTo3DMeshRun libs0 "fr" gj0 100 st0).2.1).mem "fr" = none := by
  have hmem : ("fr" : String) ∉ dbAllowList := by decide
  unfold geoJsonTo3DMeshRun
  rw [if_neg hmem]
  refine ⟨rfl, ?_, rfl⟩
  rw [featuresToMeshes_gj0]
  simp

/-- C5 (amended): after a full cache miss that computes a region's mesh, the
transient memory tier is never written (`polygonCache` and its helpers are
dead code), while the persistent tier receives the combined mesh exactly when
the region is in the allow-list ["ru","ca","us","cn","br","au"] — the same
list consulted by the load attempt. -/
theorem c5_amended (libs : GeoLibs) (name : String) (gj : GeoJson) (radius : ℝ)
    (st : CacheState) (hmiss : ¬ (name ∈ dbAllowList ∧ (st.db name).isSome)) :
    (geoJsonTo3DMeshRun libs name gj radius st).2.1.mem = st.mem
    ∧ (geoJsonTo3DMeshRun libs name gj radius st).2.2 = true
    ∧ (name ∈ dbAllowList →
        (geoJsonTo3DMeshRun libs name gj radius st).2.1.db name =
          some [libs.merge (geoJsonTo3DMeshRun libs name gj radius st).1])
    ∧ (name ∉ dbAllowList →
        (geoJsonTo3DMeshRun libs name gj radius st).2.1.db = st.db) := by
  by_cases hin : name ∈ dbAllowList
  · have hdb : st.db name = none := by
      cases hdbv : st.db name with
      | none => rfl
      | some v => exact absurd ⟨hin, by rw [hdbv]; rfl⟩ hmiss
    unfold geoJsonTo3DMeshRun
    rw [if_pos hin, hdb]
    refine ⟨rfl, rfl, fun _ => ?_, fun hno => absurd hin hno⟩
    simp
  · unfold geoJsonTo3DMeshRun
    rw [if_neg hin]
    exact ⟨rfl, rfl, fun hyes => absurd hyes hin, fun _ => rfl⟩

/-- Witness for C5 (amended) at the concrete full miss on region "fr". -/
theorem c5_witness :
    (geoJsonTo3DMeshRun libs0 "fr" gj0 100 st0).2.1.mem = st0.mem
    ∧ (geoJsonTo3DMeshRun libs0 "fr" gj0 100 st0).2.2 = true
    ∧ (("fr" : String) ∈ dbAllowList →
        (geoJsonTo3DMeshRun libs0 "fr" gj0 100 st0).2.1.db "fr" =
          some [libs0.merge (geoJsonTo3DMeshRun libs0 "fr" gj0 100 st0).1])
    ∧ (("fr" : String) ∉ dbAllowList →
        (geoJsonTo3DMeshRun libs0 "fr" gj0 100 st0).2.1.db = st0.db) :=
  c5_amended libs0 "fr" gj0 100 st0 (by decide)

/-- C9 counterexample: two requests for the same uncached, non-allow-listed
key "fr" both run the compute pipeline — the second starts from the cache
state the first left behind and still recomputes, so the two requests trigger
2 underlying computations, not exactly 1 as the claim states. -/
theorem c9_counterexample :
    (geoJsonTo3DMeshRun libs0 "fr" gj0 100 st0).2.2.toNat +
      (geoJsonTo3DMeshRun libs0 "fr" gj0 100
        ((geoJsonTo3DMeshRun libs0 "fr" gj0 100 st0).2.1)).2.2.toNat = 2
    ∧ (2 : ℕ) ≠ 1 := by
  have hmem : ("fr" : String) ∉ dbAllowList := by decide
  unfold geoJsonTo3DMeshRun
  rw [if_neg hmem, if_neg hmem]
  exact ⟨rfl, by norm_num⟩

/-- C9 (amended): the code has no single-flight mechanism. For any region not
in the precomputed allow-list, every call runs the compute pipeline: the
compute flag is `true`, the result is the freshly computed mesh list, the
cache state is passed through unchanged, and the result is independent of the
cache state — so two concurrent requests for the same uncached key trigger two
underlying computations. (Allow-listed regions avoid recomputation only once
the first request's persistent write has completed.) -/
theorem c9_amended (libs : GeoLibs) (name : String) (gj : GeoJson) (radius : ℝ)
    (st st2 : CacheState) (h : name ∉ dbAllowList) :
    (geoJsonTo3DMeshRun libs name gj radius st).2.2 = true
    ∧ (geoJsonTo3DMeshRun libs name gj radius st).1 =
        featuresToMeshes libs gj.meshMethod radius gj.features
    ∧ (geoJsonTo3DMeshRun libs name gj radius st).2.1 = st
    ∧ (geoJsonTo3DMeshRun libs name gj radius st).1 =
        (geoJsonTo3DMeshRun libs name gj radius st2).1 := by
  unfold geoJsonTo3DMeshRun
  rw [if_neg h, if_neg h]
  exact ⟨rfl, rfl, rfl, rfl⟩

/-- Witness for C9 (amended) at the concrete uncached region "fr". -/
theorem c9_witness :
    (geoJsonTo3DMeshRun libs0 "fr" gj0 100 st0).2.2 = true
    ∧ (geoJsonTo3DMeshRun libs0 "fr" gj0 100 st0).1 =
        featuresToMeshes libs0 gj0.meshMethod 100 gj0.features
    ∧ (geoJsonTo3DMeshRun libs0 "fr" gj0 100 st0).2.1 = st0
    ∧ (geoJsonTo3DMeshRun libs0 "fr" gj0 100 st0).1 =
        (geoJsonTo3DMeshRun libs0 "fr" gj0 100 st0).1 :=
  c9_amended libs0 "fr" gj0 100 st0 st0 (by decide)

/-! ## Highlight request flow (src/main.js, World.highlightCountry, 359-587)

`highlightCountry` first calls `this.removePreviousGeometries()` (detaching
every tracked geometry from the earth object and clearing the list), then
starts the mesh promise (GLB load or GeoJSON fetch + tessellation, neither of
which touches the display), then looks up `this.countryCenters[countryName]`
and returns with only an error log when the entry is missing; otherwise it
calls `rotateGlobeTo(targetLatLng, callback)` whose completion callback awaits
the mesh promise and attaches every resulting mesh, with no comparison against
whichever region is currently selected. -/

/-- The display state: the uuids of the geometries currently attached to the
earth object and tracked in `previousGeometries`. -/
structure DisplayState : Type where
  attached : List String
deriving DecidableEq

/-- `removePreviousGeometries` of src/main.js: detach every tracked geometry
and clear the tracking list. -/
def removePreviousGeometriesStep (st : DisplayState) : DisplayState :=
  { attached := [] }

/-- The synchronous prefix of `highlightCountry` up to scheduling the
rotation: remove the previous geometries, then look up the center-coordinate
table; on a missing entry the request aborts (`return`) with no rotation
scheduled, otherwise the rotation toward the entry is scheduled. Returns the
display state at that point and the scheduled target, `none` meaning the
request aborted. -/
def highlightCountryEntry (centers : String → Option (ℚ × ℚ)) (name : String)
    (st : DisplayState) : DisplayState × Option (ℚ × ℚ) :=
  let st1 := removePreviousGeometriesStep st
  match centers name with
  | none => (st1, none)
  | some t => (st1, some t)

/-- The rotation-completion callback of `highlightCountry` (src/main.js
563-580): attach every awaited mesh and track its uuid. The callback closure
performs no staleness comparison of any kind. -/
def attachCallback (meshUuids : List String) (st : DisplayState) : DisplayState :=
  { attached := st.attached ++ meshUuids }

/-- C6 counterexample: with a geometry attached and a region absent from the
center-coordinate table, the request aborts (no rotation is scheduled), but
the previously displayed geometry is no longer attached afterwards — it was
detached by the `removePreviousGeometries()` call at the top of
`highlightCountry`, so the displayed geometry is not left untouched. -/
theorem c6_counterexample :
    (highlightCountryEntry (fun _ => none) "xy" ⟨["g1"]⟩).2 = none
    ∧ ("g1" : String) ∈ (⟨["g1"]⟩ : DisplayState).attached
    ∧ ("g1" : String) ∉ (highlightCountryEntry (fun _ => none) "xy" ⟨["g1"]⟩).1.attached := by
  refine ⟨rfl, by decide, by decide⟩

/-- C6 (amended): when the center-coordinate table has no entry for the
requested region, the highlight request aborts immediately — no rotation is
scheduled and no new geometry is ever attached — but the previously displayed
geometry has already been detached by the removal step that opens every
request, so the display is left empty rather than untouched. -/
theorem c6_amended (centers : String → Option (ℚ × ℚ)) (name : String)
    (st : DisplayState) (h : centers name = none) :
    (highlightCountryEntry centers name st).2 = none
    ∧ (highlightCountryEntry centers name st).1.attached = [] := by
  unfold highlightCountryEntry removePreviousGeometriesStep
  rw [h]
  exact ⟨rfl, rfl⟩

/-- Witness for C6 (amended) at a concrete empty center table. -/
theorem c6_witness :
    (highlightCountryEntry (fun _ => none) "xy" ⟨["g1"]⟩).2 = none
    ∧ (highlightCountryEntry (fun _ => none) "xy" ⟨["g1"]⟩).1.attached = [] :=
  c6_amended (fun _ => none) "xy" ⟨["g1"]⟩ rfl

/-- C7 counterexample: region "fr" is requested, then region "de" is requested
before the first computation resolves (its entry step clears the display).
When the stale "fr" computation finally resolves, its completion callback
attaches the "fr" mesh anyway — even though the currently selected region is
"de" ≠ "fr" — because the callback performs no staleness comparison. The
claim that a stale result is never attached is false. -/
theorem c7_counterexample :
    ("fr" : String) ≠ "de"
    ∧ (attachCallback ["meshFR"]
        (highlightCountryEntry (fun _ => some (0, 0)) "de"
          (highlightCountryEntry (fun _ => some (0, 0)) "fr" ⟨[]⟩).1).1).attached
      = ["meshFR"] := by
  exact ⟨by decide, rfl⟩

/-- C7 (amended): the completion callback attaches its meshes unconditionally;
no comparison against the currently selected region exists. In particular,
after a new region has been selected (which empties the display), a stale
callback for a different region still attaches exactly its own meshes. -/
theorem c7_amended (centers : String → Option (ℚ × ℚ))
    (staleName currentName : String) (staleUuids : List String) (st : DisplayState)
    (h : staleName ≠ currentName) :
    (attachCallback staleUuids
        (highlightCountryEntry centers currentName st).1).attached = staleUuids := by
  unfold highlightCountryEntry removePreviousGeometriesStep attachCallback
  cases centers currentName <;> rfl

/-- Witness for C7 (amended): the stale "fr" callback runs after "de" was
selected and its meshes end up attached. -/
theorem c7_witness :
    (attachCallback ["meshFR"]
        (highlightCountryEntry (fun _ => some (0, 0)) "de" ⟨[]⟩).1).attached
      = ["meshFR"] :=
  c7_amended (fun _ => some (0, 0)) "fr" "de" ["meshFR"] ⟨[]⟩ (by decide)

/-! ## C10: centroid of an unsupported geometry type -/

/-- C10: for every geometry whose type is neither Polygon nor MultiPolygon,
`calculatePolygonCentroid` does not throw: it returns the fixed point
{lat: 0, lng: 0} (after logging a diagnostic), so a caller aiming the globe
rotation receives the (0, 0) coordinate instead of a failure. -/
theorem c10_centroid_unsupported (g : Geometry) (h : g.isSupported = false) :
    calculatePolygonCentroid g = (0, 0) := by
  cases g with
  | polygon rings => exact absurd h (by simp [Geometry.isSupported])
  | multiPolygon polys => exact absurd h (by simp [Geometry.isSupported])
  | other t => rfl

/-- Witness for C10 at the unsupported geometry type "Point". -/
theorem c10_witness :
    (Geometry.other "Point").isSupported = false
    ∧ calculatePolygonCentroid (Geometry.other "Point") = (0, 0) :=
  ⟨rfl, c10_centroid_unsupported (Geometry.other "Point") rfl⟩

end ThreeEarth
